import Mathlib

/-!
# ziglandout: the calling-convention adapter of `src/audio.c`

`audio.c` holds two fixed-arity wrappers around entry points of the PipeWire
client library:

* `sysaudio_spa_format_audio_raw_build (builder, id, info)` returns
  `spa_format_audio_raw_build (builder, id, info)`;
* `sysaudio_pw_registry_add_listener (reg, reg_listener, events)` runs
  `pw_registry_add_listener (reg, reg_listener, events, NULL)` as an expression
  statement inside a `void` function.

The native library is not part of the repository, so its two entry points are a
parameter (`Native`) of every definition below: the native state is an arbitrary
type `σ` and the entry points are arbitrary state transformers.  Pointers are
addresses (`Nat`, with `0` for `NULL`); a `uint32_t` is a `Nat` below `2 ^ 32`
(the wrappers do no arithmetic on it, so every statement holds for all `Nat`).
-/

namespace Sysaudio

/-! ## Values crossing the boundary -/

/-- A C pointer value: an address, the null pointer being address zero. -/
abbrev Ptr := Nat

/-- The C constant `NULL`. -/
def NULL : Ptr := 0

/-- The native library as `audio.c` sees it, over a native state `σ`.

* `spa_format_audio_raw_build builder id info` yields a `struct spa_pod *`;
* `pw_registry_add_listener reg hook events data` yields the `int` status of the
  registry method call (in PipeWire it is `0` or a negative errno value).

Both may read and change the native state in any way. -/
structure Native (σ : Type) where
  spa_format_audio_raw_build : Ptr → Nat → Ptr → σ → Ptr × σ
  pw_registry_add_listener : Ptr → Ptr → Ptr → Ptr → σ → Int × σ

/-! ## The two wrappers of `audio.c` -/

/-- Embedding of `sysaudio_spa_format_audio_raw_build` (audio.c, lines 9 to 14):
`return spa_format_audio_raw_build(builder, id, info);`. -/
def sysaudio_spa_format_audio_raw_build {σ : Type} (N : Native σ)
    (builder : Ptr) (id : Nat) (info : Ptr) (s : σ) : Ptr × σ :=
  N.spa_format_audio_raw_build builder id info s

/-- Embedding of `sysaudio_pw_registry_add_listener` (audio.c, lines 16 to 20):
the body is the expression statement
`pw_registry_add_listener(reg, reg_listener, events, NULL);` of a `void`
function, so the value of the native call is dropped and only the native state
it leaves is kept. -/
def sysaudio_pw_registry_add_listener {σ : Type} (N : Native σ)
    (reg reg_listener events : Ptr) (s : σ) : σ :=
  (N.pw_registry_add_listener reg reg_listener events NULL s).2

/-! ## Recording the native calls -/

/-- One call into the native library, with the arguments it received. -/
inductive NativeCall where
  | raw_build (builder : Ptr) (id : Nat) (info : Ptr)
  | add_listener (reg hook events data : Ptr)
  deriving DecidableEq, Repr

/-- Instrumentation of a native library: every entry point behaves as in `N` and
also appends the call it received to a log kept next to the native state. -/
def traced {σ : Type} (N : Native σ) : Native (List NativeCall × σ) where
  spa_format_audio_raw_build := fun builder id info st =>
    ((N.spa_format_audio_raw_build builder id info st.2).1,
      (st.1 ++ [NativeCall.raw_build builder id info],
        (N.spa_format_audio_raw_build builder id info st.2).2))
  pw_registry_add_listener := fun reg hook events data st =>
    ((N.pw_registry_add_listener reg hook events data st.2).1,
      (st.1 ++ [NativeCall.add_listener reg hook events data],
        (N.pw_registry_add_listener reg hook events data st.2).2))

/-- One invocation of a wrapper by the caller, with its arguments. -/
inductive WrapperCall where
  | build (builder : Ptr) (id : Nat) (info : Ptr)
  | addListener (reg hook events : Ptr)
  deriving DecidableEq, Repr

/-- The native state left by one wrapper invocation. -/
def WrapperCall.run {σ : Type} (N : Native σ) : WrapperCall → σ → σ
  | WrapperCall.build builder id info, s =>
      (sysaudio_spa_format_audio_raw_build N builder id info s).2
  | WrapperCall.addListener reg hook events, s =>
      sysaudio_pw_registry_add_listener N reg hook events s

/-- The native state left by a history of wrapper invocations, oldest first. -/
def runWrappers {σ : Type} (N : Native σ) : List WrapperCall → σ → σ
  | [], s => s
  | c :: cs, s => runWrappers N cs (c.run N s)

/-- The native call a direct caller would make in place of a wrapper invocation:
the same arguments, and `NULL` as user data of a registration. -/
def WrapperCall.direct : WrapperCall → NativeCall
  | WrapperCall.build builder id info => NativeCall.raw_build builder id info
  | WrapperCall.addListener reg hook events =>
      NativeCall.add_listener reg hook events NULL

/-- The native state left by one direct native call. -/
def NativeCall.run {σ : Type} (N : Native σ) : NativeCall → σ → σ
  | NativeCall.raw_build builder id info, s =>
      (N.spa_format_audio_raw_build builder id info s).2
  | NativeCall.add_listener reg hook events data, s =>
      (N.pw_registry_add_listener reg hook events data s).2

/-- The native state left by a sequence of direct native calls, oldest first. -/
def runNative {σ : Type} (N : Native σ) : List NativeCall → σ → σ
  | [], s => s
  | c :: cs, s => runNative N cs (c.run N s)

/-! ## A model of the native library -/

/-- One listener recorded by a registry: the registry it listens on, the
listener record (`struct spa_hook`), the event table and the user data. -/
structure Listener where
  reg : Ptr
  hook : Ptr
  events : Ptr
  data : Ptr
  deriving DecidableEq, Repr

/-- Content of a listener record: the event table and the user data it is bound
to. A zero-initialised record holds two null pointers. -/
structure SpaHook where
  funcs : Ptr
  data : Ptr
  deriving DecidableEq, Repr

/-- Payload of the registry event announcing an added object. -/
structure GlobalEvent where
  id : Nat
  permissions : Nat
  objType : Nat
  version : Nat
  props : Ptr
  deriving DecidableEq, Repr

/-- One call of an object-added handler: the function called, the user data and
the payload it received. -/
structure Invocation where
  handler : Ptr
  data : Ptr
  event : GlobalEvent
  deriving DecidableEq, Repr

/-- Content of a raw-audio descriptor (`struct spa_audio_info_raw`). -/
structure AudioInfoRaw where
  format : Nat
  rate : Nat
  channels : Nat
  deriving DecidableEq, Repr

/-- Modelled from the spec: the state of the native library, which is not part of
the repository. It holds the listeners every registry has recorded (oldest
first), the memory of listener records, the object-added handler of every event
table, the raw-audio descriptors in memory, and the parameter objects built so
far with the number of builder bytes they use. -/
structure World where
  listeners : List Listener
  hooks : List (Ptr × SpaHook)
  tables : List (Ptr × Ptr)
  infos : List (Ptr × AudioInfoRaw)
  pods : List (Ptr × Nat × AudioInfoRaw)
  used : Nat
  deriving DecidableEq, Repr

/-- Bytes a builder can hold in the model. -/
def builderCapacity : Nat := 1024

/-- Bytes one raw-audio parameter object takes in the model. -/
def podSize : Nat := 64

/-- Content of the listener record at address `l`; memory never written is zero. -/
def World.hookAt (w : World) (l : Ptr) : SpaHook :=
  (w.hooks.lookup l).getD ⟨NULL, NULL⟩

/-- The object-added handler of the event table at address `ev`; `NULL` when the
table has none. -/
def World.handlerOf (w : World) (ev : Ptr) : Ptr :=
  (w.tables.lookup ev).getD NULL

/-- Modelled from the spec: the native `pw_registry_add_listener (reg, hook,
events, data)`, which is not part of the repository. It binds the listener
record to the event table and the user data, records the listener at the end of
the listeners of the registry and reports status `0`. -/
def World.add_listener (reg hook events data : Ptr) (w : World) : Int × World :=
  (0, { w with
        listeners := w.listeners ++ [⟨reg, hook, events, data⟩]
        hooks := (hook, ⟨events, data⟩) :: w.hooks })

/-- Modelled from the spec: the native `spa_format_audio_raw_build (builder, id,
info)`, which is not part of the repository. A null builder or a reference that
holds no descriptor (the null reference among them) is invalid and yields a null
result; otherwise the object is placed at the next free byte of the builder when
it fits, and the result is null when the builder is full. -/
def World.raw_build (builder : Ptr) (id : Nat) (info : Ptr) (w : World) :
    Ptr × World :=
  if builder = NULL then (NULL, w)
  else
    match w.infos.lookup info with
    | none => (NULL, w)
    | some d =>
      if w.used + podSize ≤ builderCapacity then
        (builder + w.used,
          { w with pods := (builder + w.used, id, d) :: w.pods
                   used := w.used + podSize })
      else (NULL, { w with used := w.used + podSize })

/-- Modelled from the spec: a native library whose registry records the listeners
it is given and whose builder constructs parameter objects. -/
def modelNative : Native World where
  spa_format_audio_raw_build := World.raw_build
  pw_registry_add_listener := World.add_listener

/-- Modelled from the spec: the registry event announcing an added object on
`reg`. Every listener recorded for `reg` whose event table has an object-added
handler gets that handler called with the listener's user data and the payload,
in registration order. -/
def World.emit_global (w : World) (reg : Ptr) (e : GlobalEvent) : List Invocation :=
  (w.listeners.filter (fun l => l.reg = reg)).filterMap (fun l =>
    if w.handlerOf l.events = NULL then none
    else some ⟨w.handlerOf l.events, l.data, e⟩)

/-- A native library whose registration method is not implemented: it reports
`-ENOTSUP` (`-95`) and leaves the state alone, as the PipeWire method call does
for an interface without the method. -/
def unsupportedNative : Native World where
  spa_format_audio_raw_build := World.raw_build
  pw_registry_add_listener := fun _ _ _ _ w => (-95, w)

/-- A native library whose registration reports success and leaves the state
alone. -/
def idleNative : Native World where
  spa_format_audio_raw_build := World.raw_build
  pw_registry_add_listener := fun _ _ _ _ w => (0, w)

/-- A world with nothing registered, one event table at address `300` whose
object-added handler is the function at address `7000`, and one populated
raw-audio descriptor at address `500`. -/
def world0 : World where
  listeners := []
  hooks := []
  tables := [(300, 7000)]
  infos := [(500, ⟨3, 48000, 2⟩)]
  pods := []
  used := 0

/-! ## Auxiliary lemmas -/

/-- A history of wrapper invocations leaves the native state that the
corresponding direct native calls leave. -/
lemma runWrappers_eq_runNative {σ : Type} (N : Native σ) (cs : List WrapperCall) :
    ∀ s : σ, runWrappers N cs s = runNative N (cs.map WrapperCall.direct) s := by
  induction cs with
  | nil => intro s; rfl
  | cons c cs ih =>
    intro s
    cases c with
    | build builder id info =>
      simpa [runWrappers, runNative] using ih _
    | addListener reg hook events =>
      simpa [runWrappers, runNative] using ih _

/-- Over an instrumented library, a history of wrapper invocations appends one
logged call per invocation and acts on the native state as without the log. -/
lemma runWrappers_traced {σ : Type} (N : Native σ) (cs : List WrapperCall) :
    ∀ (t : List NativeCall) (s : σ),
      runWrappers (traced N) cs (t, s)
        = (t ++ cs.map WrapperCall.direct, runWrappers N cs s) := by
  induction cs with
  | nil => intro t s; simp [runWrappers]
  | cons c cs ih =>
    intro t s
    cases c with
    | build builder id info =>
      have h := ih (t ++ [NativeCall.raw_build builder id info])
        (N.spa_format_audio_raw_build builder id info s).2
      simpa [runWrappers, WrapperCall.run, WrapperCall.direct,
        sysaudio_spa_format_audio_raw_build, traced] using h
    | addListener reg hook events =>
      have h := ih (t ++ [NativeCall.add_listener reg hook events NULL])
        (N.pw_registry_add_listener reg hook events NULL s).2
      simpa [runWrappers, WrapperCall.run, WrapperCall.direct,
        sysaudio_pw_registry_add_listener, traced] using h

/-- Registration in the model leaves the event tables alone. -/
lemma handlerOf_add_listener (reg hook events data ev : Ptr) (w : World) :
    (World.add_listener reg hook events data w).2.handlerOf ev = w.handlerOf ev := rfl

/-- An object-added event after a registration in the model calls what it called
before, then the handler of the new listener when its registry is the one the
event is on and its table has a handler. -/
lemma emit_global_add_listener (reg hook events data r : Ptr) (e : GlobalEvent)
    (w : World) :
    (World.add_listener reg hook events data w).2.emit_global r e
      = w.emit_global r e
        ++ (if reg = r ∧ w.handlerOf events ≠ NULL
            then [⟨w.handlerOf events, data, e⟩] else []) := by
  unfold World.emit_global
  simp only [World.add_listener, World.handlerOf, List.filter_append,
    List.filterMap_append]
  congr 1
  by_cases hr : reg = r
  · by_cases hh : (List.lookup events w.tables).getD NULL = NULL
    · simp [List.filter, hr, hh]
    · simp [List.filter, hr, hh]
  · simp [List.filter, hr]

/-- An object-added event on a registry without listeners calls nothing. -/
lemma emit_global_of_no_listener (w : World) (reg : Ptr) (e : GlobalEvent)
    (h : ∀ x ∈ w.listeners, x.reg ≠ reg) : w.emit_global reg e = [] := by
  unfold World.emit_global
  have : w.listeners.filter (fun l => l.reg = reg) = [] := by
    rw [List.filter_eq_nil_iff]
    intro x hx
    simpa using h x hx
  simp [this]

/-! ## The build-parameters wrapper -/

/-- C1. For every native library, builder handle, identifier and descriptor
reference (null included), `sysaudio_spa_format_audio_raw_build` returns the
value `spa_format_audio_raw_build` returns on the same arguments and leaves the
native state that direct call leaves. -/
theorem sysaudio_spa_format_audio_raw_build_refines {σ : Type} (N : Native σ)
    (builder : Ptr) (id : Nat) (info : Ptr) (s : σ) :
    sysaudio_spa_format_audio_raw_build N builder id info s
        = N.spa_format_audio_raw_build builder id info s
      ∧ sysaudio_spa_format_audio_raw_build N builder id NULL s
        = N.spa_format_audio_raw_build builder id NULL s :=
  ⟨rfl, rfl⟩

/-- C4. The build-parameters wrapper validates nothing and alters no outcome: its
result is null exactly when the native result is null; with a null descriptor
the native function is still called (the instrumented library logs the call)
and its result is returned as is; and a non-null native result is returned as
that same non-null reference. -/
theorem sysaudio_spa_format_audio_raw_build_null_iff {σ : Type} (N : Native σ)
    (builder : Ptr) (id : Nat) (info : Ptr) (s : σ) :
    ((sysaudio_spa_format_audio_raw_build N builder id info s).1 = NULL
        ↔ (N.spa_format_audio_raw_build builder id info s).1 = NULL)
      ∧ (∀ t : List NativeCall,
          sysaudio_spa_format_audio_raw_build (traced N) builder id NULL (t, s)
            = ((N.spa_format_audio_raw_build builder id NULL s).1,
                (t ++ [NativeCall.raw_build builder id NULL],
                  (N.spa_format_audio_raw_build builder id NULL s).2)))
      ∧ ((N.spa_format_audio_raw_build builder id info s).1 ≠ NULL →
          (sysaudio_spa_format_audio_raw_build N builder id info s).1 ≠ NULL
            ∧ (sysaudio_spa_format_audio_raw_build N builder id info s).1
                = (N.spa_format_audio_raw_build builder id info s).1) :=
  ⟨Iff.rfl, fun _ => rfl, fun h => ⟨h, rfl⟩⟩

/-- Witness of C4 in the model: a valid builder at address `100`, identifier `3`
and the populated descriptor at address `500` give the non-null parameter object
the native function builds. -/
theorem sysaudio_spa_format_audio_raw_build_null_iff_witness :
    (modelNative.spa_format_audio_raw_build 100 3 500 world0).1 ≠ NULL
      ∧ (sysaudio_spa_format_audio_raw_build modelNative 100 3 500 world0).1 ≠ NULL
      ∧ (sysaudio_spa_format_audio_raw_build modelNative 100 3 500 world0).1
          = (modelNative.spa_format_audio_raw_build 100 3 500 world0).1 :=
  ⟨by decide,
    (sysaudio_spa_format_audio_raw_build_null_iff modelNative 100 3 500 world0).2.2
      (by decide)⟩

/-! ## The register-listener wrapper -/

/-- C2. For every native library, registry handle, listener record and event
table, `sysaudio_pw_registry_add_listener` leaves the native state that
`pw_registry_add_listener (reg, l, ev, NULL)` leaves; the call the instrumented
library logs has the three received arguments in their positions and the null
pointer as fourth; and in the model the recorded listener and the listener
record are bound to the table with null user data. -/
theorem sysaudio_pw_registry_add_listener_forwards {σ : Type} (N : Native σ)
    (reg l ev : Ptr) (s : σ) :
    sysaudio_pw_registry_add_listener N reg l ev s
        = (N.pw_registry_add_listener reg l ev NULL s).2
      ∧ (∀ t : List NativeCall,
          sysaudio_pw_registry_add_listener (traced N) reg l ev (t, s)
            = (t ++ [NativeCall.add_listener reg l ev NULL],
                (N.pw_registry_add_listener reg l ev NULL s).2))
      ∧ (∀ w : World,
          (sysaudio_pw_registry_add_listener modelNative reg l ev w).listeners
              = w.listeners ++ [⟨reg, l, ev, NULL⟩]
            ∧ (sysaudio_pw_registry_add_listener modelNative reg l ev w).hookAt l
              = ⟨ev, NULL⟩) :=
  ⟨rfl, fun _ => rfl, fun w => ⟨rfl, by
    simp [sysaudio_pw_registry_add_listener, modelNative, World.add_listener,
      World.hookAt, List.lookup, NULL]⟩⟩

/-- C3, as the code refutes it: the registration wrapper does not report the
native status. A library whose registration fails with `-95` and one whose
registration succeeds with `0`, both leaving the state alone, give the caller
of the wrapper the same outcome; so no observation of what the wrapper hands
back recovers the status of the native call. -/
theorem sysaudio_pw_registry_add_listener_drops_status :
    (unsupportedNative.pw_registry_add_listener 100 200 300 NULL world0).1 = -95
      ∧ (idleNative.pw_registry_add_listener 100 200 300 NULL world0).1 = 0
      ∧ sysaudio_pw_registry_add_listener unsupportedNative 100 200 300 world0
          = sysaudio_pw_registry_add_listener idleNative 100 200 300 world0
      ∧ ¬ ∃ observe : World → Int, ∀ (N : Native World) (reg l ev : Ptr) (w : World),
          observe (sysaudio_pw_registry_add_listener N reg l ev w)
            = (N.pw_registry_add_listener reg l ev NULL w).1 := by
  refine ⟨rfl, rfl, rfl, ?_⟩
  rintro ⟨observe, h⟩
  have h1 := h unsupportedNative 100 200 300 world0
  have h2 := h idleNative 100 200 300 world0
  have e1 : sysaudio_pw_registry_add_listener unsupportedNative 100 200 300 world0
      = world0 := rfl
  have e2 : sysaudio_pw_registry_add_listener idleNative 100 200 300 world0
      = world0 := rfl
  rw [e1] at h1
  rw [e2] at h2
  have h3 : (unsupportedNative.pw_registry_add_listener 100 200 300 NULL world0).1
      = (idleNative.pw_registry_add_listener 100 200 300 NULL world0).1 :=
    h1.symm.trans h2
  exact absurd h3 (by decide)

/-- C3, amended. The registration wrapper has no result: what it hands back is
the native state the call `pw_registry_add_listener (reg, l, ev, NULL)` leaves,
unchanged, and nothing else; two libraries whose call leaves the same state
give the caller the same outcome whatever status each reports. -/
theorem sysaudio_pw_registry_add_listener_state_only {σ : Type} (N M : Native σ)
    (reg l ev : Ptr) (s : σ)
    (hstate : (N.pw_registry_add_listener reg l ev NULL s).2
      = (M.pw_registry_add_listener reg l ev NULL s).2) :
    sysaudio_pw_registry_add_listener N reg l ev s
        = (N.pw_registry_add_listener reg l ev NULL s).2
      ∧ sysaudio_pw_registry_add_listener N reg l ev s
        = sysaudio_pw_registry_add_listener M reg l ev s :=
  ⟨rfl, hstate⟩

/-- Witness of the amended C3: the failing and the succeeding library of the
counterexample leave the same state. -/
theorem sysaudio_pw_registry_add_listener_state_only_witness :
    (unsupportedNative.pw_registry_add_listener 100 200 300 NULL world0).2
        = (idleNative.pw_registry_add_listener 100 200 300 NULL world0).2
      ∧ sysaudio_pw_registry_add_listener unsupportedNative 100 200 300 world0
        = (unsupportedNative.pw_registry_add_listener 100 200 300 NULL world0).2
      ∧ sysaudio_pw_registry_add_listener unsupportedNative 100 200 300 world0
        = sysaudio_pw_registry_add_listener idleNative 100 200 300 world0 :=
  ⟨rfl, sysaudio_pw_registry_add_listener_state_only unsupportedNative idleNative
    100 200 300 world0 rfl⟩

/-- C5. Registering twice through the wrapper is registering twice directly with
`NULL`: for every native library the two wrapper calls leave the state the two
direct calls leave. In the model the registry then holds the listener twice, and
when the event table has an object-added handler an event on the registry calls
that handler twice more than before, each time with null user data. -/
theorem sysaudio_pw_registry_add_listener_twice {σ : Type} (N : Native σ)
    (reg l ev : Ptr) (s : σ) (w : World) (e : GlobalEvent)
    (hh : w.handlerOf ev ≠ NULL) :
    sysaudio_pw_registry_add_listener N reg l ev
          (sysaudio_pw_registry_add_listener N reg l ev s)
        = (N.pw_registry_add_listener reg l ev NULL
            (N.pw_registry_add_listener reg l ev NULL s).2).2
      ∧ (sysaudio_pw_registry_add_listener modelNative reg l ev
            (sysaudio_pw_registry_add_listener modelNative reg l ev w)).listeners
          = w.listeners ++ [⟨reg, l, ev, NULL⟩, ⟨reg, l, ev, NULL⟩]
      ∧ (sysaudio_pw_registry_add_listener modelNative reg l ev
            (sysaudio_pw_registry_add_listener modelNative reg l ev w)).emit_global reg e
          = w.emit_global reg e
              ++ [⟨w.handlerOf ev, NULL, e⟩, ⟨w.handlerOf ev, NULL, e⟩] := by
  refine ⟨rfl, ?_, ?_⟩
  · simp [sysaudio_pw_registry_add_listener, modelNative, World.add_listener]
  · have h1 := emit_global_add_listener reg l ev NULL reg e
      (World.add_listener reg l ev NULL w).2
    have h2 := emit_global_add_listener reg l ev NULL reg e w
    rw [handlerOf_add_listener] at h1
    simp only [hh, ne_eq, not_false_eq_true, and_self, if_true] at h1 h2
    show (World.add_listener reg l ev NULL
      (World.add_listener reg l ev NULL w).2).2.emit_global reg e = _
    rw [h1, h2, List.append_assoc]
    rfl

/-- Witness of C5: on the registry at address `100` of a world with nothing
registered, two registrations of the record at `200` with the table at `300`
leave two listeners, and an added object calls the handler at `7000` twice. -/
theorem sysaudio_pw_registry_add_listener_twice_witness :
    world0.handlerOf 300 ≠ NULL
      ∧ (sysaudio_pw_registry_add_listener modelNative 100 200 300
            (sysaudio_pw_registry_add_listener modelNative 100 200 300 world0)
          = (modelNative.pw_registry_add_listener 100 200 300 NULL
              (modelNative.pw_registry_add_listener 100 200 300 NULL world0).2).2
        ∧ (sysaudio_pw_registry_add_listener modelNative 100 200 300
            (sysaudio_pw_registry_add_listener modelNative 100 200 300 world0)).listeners
          = world0.listeners ++ [⟨100, 200, 300, NULL⟩, ⟨100, 200, 300, NULL⟩]
        ∧ (sysaudio_pw_registry_add_listener modelNative 100 200 300
            (sysaudio_pw_registry_add_listener modelNative 100 200 300 world0)).emit_global
              100 ⟨42, 0, 11, 3, 0⟩
          = world0.emit_global 100 ⟨42, 0, 11, 3, 0⟩
              ++ [⟨world0.handlerOf 300, NULL, ⟨42, 0, 11, 3, 0⟩⟩,
                  ⟨world0.handlerOf 300, NULL, ⟨42, 0, 11, 3, 0⟩⟩]) :=
  ⟨by decide,
    sysaudio_pw_registry_add_listener_twice modelNative 100 200 300 world0 world0
      ⟨42, 0, 11, 3, 0⟩ (by decide)⟩

/-- C7. In the model, on a registry without prior listeners and with an event
table that has an object-added handler: before the call an added object calls
nothing; after one call of the wrapper it calls that handler exactly once, with
the payload of the event and null user data; and so it does after the direct
native call with `NULL`, which leaves the same state. -/
theorem sysaudio_pw_registry_add_listener_event_once (w : World) (reg l ev : Ptr)
    (e : GlobalEvent)
    (hprior : ∀ x ∈ w.listeners, x.reg ≠ reg)
    (hh : w.handlerOf ev ≠ NULL) :
    w.emit_global reg e = []
      ∧ (sysaudio_pw_registry_add_listener modelNative reg l ev w).emit_global reg e
          = [⟨w.handlerOf ev, NULL, e⟩]
      ∧ (modelNative.pw_registry_add_listener reg l ev NULL w).2.emit_global reg e
          = [⟨w.handlerOf ev, NULL, e⟩]
      ∧ sysaudio_pw_registry_add_listener modelNative reg l ev w
          = (modelNative.pw_registry_add_listener reg l ev NULL w).2 := by
  have h0 := emit_global_of_no_listener w reg e hprior
  have h1 := emit_global_add_listener reg l ev NULL reg e w
  simp only [hh, ne_eq, not_false_eq_true, and_self, if_true, h0,
    List.nil_append] at h1
  exact ⟨h0, h1, h1, rfl⟩

/-- Witness of C7: the registry at address `100` of a world with nothing
registered, the zero-initialised listener record at `200` and the table at `300`
whose object-added handler is the function at `7000`. -/
theorem sysaudio_pw_registry_add_listener_event_once_witness :
    (∀ x ∈ world0.listeners, x.reg ≠ 100)
      ∧ world0.handlerOf 300 ≠ NULL
      ∧ world0.hookAt 200 = ⟨NULL, NULL⟩
      ∧ (sysaudio_pw_registry_add_listener modelNative 100 200 300 world0).emit_global
            100 ⟨42, 0, 11, 3, 0⟩
          = [⟨7000, NULL, ⟨42, 0, 11, 3, 0⟩⟩] :=
  ⟨by decide, by decide, by decide,
    (sysaudio_pw_registry_add_listener_event_once world0 100 200 300
      ⟨42, 0, 11, 3, 0⟩ (by decide) (by decide)).2.1⟩

/-! ## The adapter as a whole -/

/-- C6. The adapter has no state of its own: a history of wrapper calls leaves
the native state the corresponding direct native calls leave, and whenever two
histories (of any lengths, from any states) reach the same native state, the
build wrapper returns the same result and the registration wrapper leaves the
same native state on the same arguments. -/
theorem adapter_stateless {σ : Type} (N : Native σ)
    (before1 before2 : List WrapperCall) (s1 s2 : σ)
    (builder : Ptr) (id : Nat) (info reg l ev : Ptr)
    (hsame : runWrappers N before1 s1 = runWrappers N before2 s2) :
    runWrappers N before1 s1 = runNative N (before1.map WrapperCall.direct) s1
      ∧ sysaudio_spa_format_audio_raw_build N builder id info (runWrappers N before1 s1)
          = sysaudio_spa_format_audio_raw_build N builder id info
              (runWrappers N before2 s2)
      ∧ sysaudio_pw_registry_add_listener N reg l ev (runWrappers N before1 s1)
          = sysaudio_pw_registry_add_listener N reg l ev (runWrappers N before2 s2) := by
  refine ⟨runWrappers_eq_runNative N before1 s1, ?_, ?_⟩
  · rw [hsame]
  · rw [hsame]

/-- Witness of C6: a run with three earlier wrapper calls and a run with one
reach the same state of the model, and the next wrapper calls agree. -/
theorem adapter_stateless_witness :
    runWrappers modelNative
        [WrapperCall.build 0 3 500, WrapperCall.build 100 3 0,
          WrapperCall.addListener 100 200 300] world0
        = runWrappers modelNative [WrapperCall.addListener 100 200 300] world0
      ∧ sysaudio_spa_format_audio_raw_build modelNative 100 3 500
          (runWrappers modelNative
            [WrapperCall.build 0 3 500, WrapperCall.build 100 3 0,
              WrapperCall.addListener 100 200 300] world0)
        = sysaudio_spa_format_audio_raw_build modelNative 100 3 500
            (runWrappers modelNative [WrapperCall.addListener 100 200 300] world0)
      ∧ sysaudio_pw_registry_add_listener modelNative 100 200 300
          (runWrappers modelNative
            [WrapperCall.build 0 3 500, WrapperCall.build 100 3 0,
              WrapperCall.addListener 100 200 300] world0)
        = sysaudio_pw_registry_add_listener modelNative 100 200 300
            (runWrappers modelNative [WrapperCall.addListener 100 200 300] world0) :=
  ⟨by decide,
    (adapter_stateless modelNative
      [WrapperCall.build 0 3 500, WrapperCall.build 100 3 0,
        WrapperCall.addListener 100 200 300]
      [WrapperCall.addListener 100 200 300] world0 world0 100 3 500 100 200 300
      (by decide)).2⟩

/-- C8. Each wrapper is one unconditional relay: over an instrumented library,
for all arguments, one call of the build wrapper logs exactly the call
`spa_format_audio_raw_build (b, id, info)`, one call of the registration wrapper
logs exactly the call `pw_registry_add_listener (reg, l, ev, NULL)`, and a
history of wrapper calls logs exactly one native call per wrapper call, in
order, with nothing else. -/
theorem wrappers_relay_once {σ : Type} (N : Native σ) (t : List NativeCall) (s : σ) :
    (∀ (builder : Ptr) (id : Nat) (info : Ptr),
        (sysaudio_spa_format_audio_raw_build (traced N) builder id info (t, s)).2.1
          = t ++ [NativeCall.raw_build builder id info])
      ∧ (∀ reg l ev : Ptr,
        (sysaudio_pw_registry_add_listener (traced N) reg l ev (t, s)).1
          = t ++ [NativeCall.add_listener reg l ev NULL])
      ∧ (∀ cs : List WrapperCall,
        (runWrappers (traced N) cs (t, s)).1 = t ++ cs.map WrapperCall.direct
          ∧ ((runWrappers (traced N) cs (t, s)).1).length = t.length + cs.length) := by
  refine ⟨fun _ _ _ => rfl, fun _ _ _ => rfl, fun cs => ?_⟩
  rw [runWrappers_traced]
  simp

end Sysaudio
